import Mathlib

/-!
Verification of the f1-strategy-simulator core against its specification.

The Python sources are shallowly embedded below:
  * `calculate_total_stint_time`, `build_stint_lengths`, `race_time_loop`,
    `simulate_strategy` embed the strategy projector in
    `f1_strategy_simulator/__main__.py` (`simulate_race`,
    `calculate_total_stint_time`);
  * `degradation_mask`, `in_out_lap1_mask`, `qualifying_laps`,
    `linregress_slope`, `stint_ids`, `stint_laps`, `stint_slope`,
    `calculate_tyre_degradation` embed the degradation estimator in
    `f1_strategy_simulator/common/helpers.py`;
  * `get_last_race_without_rain` embeds the backward season search in
    `helpers.py`, indexed by fuel because the source loop is `while True:`;
  * `expand_statuses` embeds `TrackStatus.expand_statuses`, and the two
    lookup tables embed the `PitStopTimeLoss` / `NumberOfLaps` enums with
    their `from_name` class methods, all in
    `f1_strategy_simulator/common/enums.py`.

Python floats are modelled as exact rationals (`ℚ`); the NaN produced by the
estimator when no stint qualifies is modelled by `Option ℚ` (`none` = NaN),
with `oadd`/`omul` giving NaN-propagating arithmetic for the projector.
-/

set_option autoImplicit false

namespace F1Sim

/-- One row of the cleaned lap table produced by `clean_race_data`
(`cleaner/clean_one_race.py`): the derived columns plus the binary
track-status columns appended by `TrackStatus.expand_statuses`. -/
structure LapRecord where
  lap_number : ℚ
  lap_time_approx_s : ℚ
  stint : ℤ
  compound : String
  pit_stop_in_lap : Bool
  pit_stop_out_lap : Bool
  GREEN : ℤ
  YELLOW : ℤ
  SAFETY_CAR : ℤ
  RED_FLAG : ℤ
  VIRTUAL_SAFETY_CAR : ℤ
  VSC_ENDING : ℤ
  deriving DecidableEq, Repr

/-- `calculate_total_stint_time` (`__main__.py`, lines 108-111):
`stint_len * avg_lap_time + tyre_deg * (stint_len * (stint_len - 1) / 2)`.
`stint_len` is a Python int, the division is exact float division, modelled
exactly in `ℚ` (the numerator is even, so the Python value is this rational
whenever the floats are exact). -/
def calculate_total_stint_time (avg_lap_time tyre_deg : ℚ) (stint_len : ℤ) : ℚ :=
  (stint_len : ℚ) * avg_lap_time
    + tyre_deg * ((stint_len : ℚ) * ((stint_len : ℚ) - 1) / 2)

/-- Stint-length derivation in `simulate_race` (`__main__.py`, lines 52-57):
`[stop - prev for prev, stop in zip([0] + stop_laps[:-1], stop_laps)]`
followed by appending
`number_of_laps - stop_laps[-1] if stop_laps else number_of_laps`. -/
def build_stint_lengths (number_of_laps : ℤ) (stop_laps : List ℤ) : List ℤ :=
  (((0 :: stop_laps.dropLast).zip stop_laps).map fun p => p.2 - p.1)
    ++ [match stop_laps.getLast? with
        | some lastStop => number_of_laps - lastStop
        | none => number_of_laps]

/-- The accumulation loop in `simulate_race` (`__main__.py`, lines 60-70):
`for i, (compound, stint_len) in enumerate(zip(compounds, stint_lengths))`,
adding the pit-stop time loss whenever `i != len(stint_lengths) - 1`.
`last_index` is `len(stint_lengths) - 1`. -/
def race_time_loop (pit_stop_time_loss : ℚ) (last_index : ℕ)
    (avg deg : String → ℚ) : ℕ → List (String × ℤ) → ℚ
  | _, [] => 0
  | i, (c, s) :: rest =>
    calculate_total_stint_time (avg c) (deg c) s
      + (if i ≠ last_index then pit_stop_time_loss else 0)
      + race_time_loop pit_stop_time_loss last_index avg deg (i + 1) rest

/-- Total projected race time for one strategy, as computed by the body of
`simulate_race` (`__main__.py`, lines 46-71) for a single `Strategy`:
`avg` and `deg` give the per-compound mean lap time and degradation rate
(the values the estimator supplies). -/
def simulate_strategy (number_of_laps : ℤ) (pit_stop_time_loss : ℚ)
    (stop_laps : List ℤ) (compounds : List String)
    (avg deg : String → ℚ) : ℚ :=
  let stint_lengths := build_stint_lengths number_of_laps stop_laps
  race_time_loop pit_stop_time_loss (stint_lengths.length - 1) avg deg 0
    (compounds.zip stint_lengths)

lemma zip_diff_sum : ∀ (l : List ℤ) (a : ℤ),
    (((a :: l.dropLast).zip l).map fun p => p.2 - p.1).sum
      = l.getLast?.getD a - a
  | [], a => by simp
  | [x], a => by simp
  | x :: y :: ys, a => by
    have ih := zip_diff_sum (y :: ys) x
    rcases hlast : (y :: ys).getLast? with _ | l
    · exact absurd (List.getLast?_eq_none_iff.mp hlast) (List.cons_ne_nil y ys)
    · simp only [List.dropLast_cons₂, List.zip_cons_cons, List.map_cons,
        List.sum_cons, List.getLast?_cons_cons, hlast, Option.getD_some] at ih ⊢
      omega

lemma build_stint_lengths_sum (number_of_laps : ℤ) (stop_laps : List ℤ) :
    (build_stint_lengths number_of_laps stop_laps).sum = number_of_laps := by
  cases stop_laps with
  | nil => simp [build_stint_lengths]
  | cons x xs =>
    have h := zip_diff_sum (x :: xs) 0
    have hne : x :: xs ≠ [] := List.cons_ne_nil x xs
    rcases hlast : (x :: xs).getLast? with _ | l
    · exact absurd (List.getLast?_eq_none_iff.mp hlast) hne
    · simp only [build_stint_lengths, List.sum_append, List.sum_cons,
        List.sum_nil, hlast, Option.getD_some] at h ⊢
      omega

lemma build_stint_lengths_length (number_of_laps : ℤ) (stop_laps : List ℤ) :
    (build_stint_lengths number_of_laps stop_laps).length
      = stop_laps.length + 1 := by
  cases stop_laps with
  | nil => simp [build_stint_lengths]
  | cons x xs =>
    simp [build_stint_lengths, List.length_zip, List.length_dropLast]

lemma race_time_loop_full (pairs : List (String × ℤ)) (last_index : ℕ)
    (pit : ℚ) (avg deg : String → ℚ) :
    ∀ i : ℕ, i + pairs.length = last_index + 1 →
    race_time_loop pit last_index avg deg i pairs
      = (pairs.map fun p => calculate_total_stint_time (avg p.1) (deg p.1) p.2).sum
        + ((pairs.length - 1 : ℕ) : ℚ) * pit := by
  induction pairs with
  | nil => intro i h; simp [race_time_loop]
  | cons p rest ih =>
    intro i h
    obtain ⟨c, s⟩ := p
    cases rest with
    | nil =>
      have hi : i = last_index := by simp at h; omega
      simp [race_time_loop, hi]
    | cons q qs =>
      have hne : i ≠ last_index := by simp at h; omega
      have ih2 := ih (i + 1) (by simp at h ⊢; omega)
      rw [show race_time_loop pit last_index avg deg i ((c, s) :: q :: qs)
          = calculate_total_stint_time (avg c) (deg c) s
            + (if i ≠ last_index then pit else 0)
            + race_time_loop pit last_index avg deg (i + 1) (q :: qs) from rfl]
      rw [if_pos hne, ih2]
      simp only [List.map_cons, List.sum_cons, List.length_cons,
        Nat.add_sub_cancel]
      push_cast
      ring

lemma race_time_loop_truncated (pairs : List (String × ℤ)) (last_index : ℕ)
    (pit : ℚ) (avg deg : String → ℚ) :
    ∀ i : ℕ, i + pairs.length ≤ last_index →
    race_time_loop pit last_index avg deg i pairs
      = (pairs.map fun p => calculate_total_stint_time (avg p.1) (deg p.1) p.2).sum
        + (pairs.length : ℚ) * pit := by
  induction pairs with
  | nil => intro i h; simp [race_time_loop]
  | cons p rest ih =>
    intro i h
    obtain ⟨c, s⟩ := p
    have hne : i ≠ last_index := by simp at h; omega
    have ih2 := ih (i + 1) (by simp at h ⊢; omega)
    simp only [race_time_loop, if_pos hne, ih2, List.map_cons, List.sum_cons,
      List.length_cons]
    push_cast
    ring

lemma sum_arith_series (L D : ℚ) (S : ℕ) :
    ∑ i in Finset.range S, (L + D * i)
      = S * L + D * ((S : ℚ) * ((S : ℚ) - 1) / 2) := by
  induction S with
  | zero => simp
  | succ n ih =>
    rw [Finset.sum_range_succ, ih]
    push_cast
    ring

/-- Claim C2: for every stint with mean lap time `L`, degradation rate `D` and
stint length `S`, `calculate_total_stint_time` equals the sum of the
arithmetic series `L, L+D, L+2D, ...` over `S` laps; and a zero-stop strategy
over `N` laps projects exactly `L*N + D*(N*(N-1)/2)` with no pit-loss term. -/
theorem stint_time_is_arithmetic_series :
    (∀ (L D : ℚ) (S : ℕ),
        calculate_total_stint_time L D (S : ℤ)
          = ∑ i in Finset.range S, (L + D * i)) ∧
      ∀ (number_of_laps : ℤ) (pit : ℚ) (c : String) (avg deg : String → ℚ),
        simulate_strategy number_of_laps pit [] [c] avg deg
          = avg c * (number_of_laps : ℚ)
            + deg c * ((number_of_laps : ℚ) * ((number_of_laps : ℚ) - 1) / 2) := by
  constructor
  · intro L D S
    rw [sum_arith_series]
    simp only [calculate_total_stint_time]
    push_cast
    ring
  · intro N pit c avg deg
    simp [simulate_strategy, build_stint_lengths, race_time_loop,
      calculate_total_stint_time]
    ring

/-- Claim C3: for every valid strategy (strictly increasing stop laps, each in
`[1, number_of_laps)`), the derived stint lengths sum exactly to the race's
total lap count. -/
theorem stint_lengths_cover_race (number_of_laps : ℤ) (stop_laps : List ℤ)
    (hinc : stop_laps.Pairwise (· < ·))
    (hmem : ∀ s ∈ stop_laps, 1 ≤ s ∧ s < number_of_laps) :
    (build_stint_lengths number_of_laps stop_laps).sum = number_of_laps :=
  build_stint_lengths_sum number_of_laps stop_laps

/-- Concrete instance of `stint_lengths_cover_race`: the spec's 72-lap race
with stops at laps 15 and 30. -/
theorem stint_lengths_cover_race_witness :
    ([15, 30] : List ℤ).Pairwise (· < ·)
      ∧ (∀ s ∈ ([15, 30] : List ℤ), 1 ≤ s ∧ s < 72)
      ∧ (build_stint_lengths 72 [15, 30]).sum = 72 :=
  ⟨by decide, by decide,
    stint_lengths_cover_race 72 [15, 30] (by decide) (by decide)⟩

/-- Claim C4: for every strategy whose compounds list has length
`stops + 1`, the projected total is the sum of the per-stint times plus
exactly `stops` additions of the per-stop time-loss constant. -/
theorem pit_loss_counted_once_per_stop (number_of_laps : ℤ) (pit : ℚ)
    (stop_laps : List ℤ) (compounds : List String) (avg deg : String → ℚ)
    (hlen : compounds.length = stop_laps.length + 1) :
    simulate_strategy number_of_laps pit stop_laps compounds avg deg
      = ((compounds.zip (build_stint_lengths number_of_laps stop_laps)).map
            fun p => calculate_total_stint_time (avg p.1) (deg p.1) p.2).sum
        + (stop_laps.length : ℚ) * pit := by
  have hst := build_stint_lengths_length number_of_laps stop_laps
  have hzip : (compounds.zip (build_stint_lengths number_of_laps stop_laps)).length
      = stop_laps.length + 1 := by
    rw [List.length_zip, hst, hlen, min_self]
  simp only [simulate_strategy]
  rw [race_time_loop_full _ _ _ _ _ 0 (by rw [hzip, hst]; omega)]
  rw [hzip, Nat.add_sub_cancel]

/-- Example per-compound mean lap times used in concrete checks
(MEDIUM 90.0 s, anything else 91.0 s). -/
def demo_avg_lap_time (c : String) : ℚ := if c = "MEDIUM" then 90 else 91

/-- Example per-compound degradation rates used in concrete checks
(MEDIUM 0.05 s/lap, anything else 0.03 s/lap). -/
def demo_tyre_deg (c : String) : ℚ := if c = "MEDIUM" then 1 / 20 else 3 / 100

/-- Concrete instance of `pit_loss_counted_once_per_stop`: the spec's
two-stop scenario (72 laps, pit loss 21.0 s, stops `[15, 30]`,
compounds `[MEDIUM, HARD, HARD]`). -/
theorem pit_loss_counted_once_per_stop_witness :
    (["MEDIUM", "HARD", "HARD"] : List String).length
        = ([15, 30] : List ℤ).length + 1
      ∧ simulate_strategy 72 21 [15, 30] ["MEDIUM", "HARD", "HARD"]
          demo_avg_lap_time demo_tyre_deg
        = (((["MEDIUM", "HARD", "HARD"] : List String).zip
              (build_stint_lengths 72 [15, 30])).map
            fun p => calculate_total_stint_time (demo_avg_lap_time p.1)
              (demo_tyre_deg p.1) p.2).sum
          + (([15, 30] : List ℤ).length : ℚ) * 21 :=
  ⟨rfl, pit_loss_counted_once_per_stop 72 21 [15, 30] ["MEDIUM", "HARD", "HARD"]
    demo_avg_lap_time demo_tyre_deg rfl⟩

/-- Claim C9: when the compounds list is shorter than `stops + 1`,
`simulate_race` does no validation and still returns a number: the zip
truncates to the first `len compounds` stints, and the pit loss is added
after every summed stint (the final-stint index is never reached). -/
theorem short_compounds_truncate_and_pit_every_stint (number_of_laps : ℤ)
    (pit : ℚ) (stop_laps : List ℤ) (compounds : List String)
    (avg deg : String → ℚ)
    (hshort : compounds.length < stop_laps.length + 1) :
    simulate_strategy number_of_laps pit stop_laps compounds avg deg
      = ((compounds.zip (build_stint_lengths number_of_laps stop_laps)).map
            fun p => calculate_total_stint_time (avg p.1) (deg p.1) p.2).sum
        + (compounds.length : ℚ) * pit := by
  have hst := build_stint_lengths_length number_of_laps stop_laps
  have hzip : (compounds.zip (build_stint_lengths number_of_laps stop_laps)).length
      = compounds.length := by
    rw [List.length_zip, hst]
    omega
  simp only [simulate_strategy]
  rw [race_time_loop_truncated _ _ _ _ _ 0 (by rw [hzip, hst]; omega)]
  rw [hzip]

/-- Concrete instance of `short_compounds_truncate_and_pit_every_stint`:
two stops but a single compound — only the first stint is summed and one
pit loss is still added after it. -/
theorem short_compounds_truncate_and_pit_every_stint_witness :
    (["SOFT"] : List String).length < ([10, 20] : List ℤ).length + 1
      ∧ simulate_strategy 50 20 [10, 20] ["SOFT"]
          demo_avg_lap_time demo_tyre_deg
        = (((["SOFT"] : List String).zip (build_stint_lengths 50 [10, 20])).map
            fun p => calculate_total_stint_time (demo_avg_lap_time p.1)
              (demo_tyre_deg p.1) p.2).sum
          + ((["SOFT"] : List String).length : ℚ) * 20 :=
  ⟨by decide, short_compounds_truncate_and_pit_every_stint 50 20 [10, 20]
    ["SOFT"] demo_avg_lap_time demo_tyre_deg (by decide)⟩

/-- The first pandas mask in `calculate_tyre_degradation` (`helpers.py`,
lines 27-35): requested compound, and all five caution-status columns zero
(the `GREEN` column is not consulted). -/
def degradation_mask (compound : String) (r : LapRecord) : Bool :=
  r.compound == compound && r.RED_FLAG == 0 && r.YELLOW == 0
    && r.SAFETY_CAR == 0 && r.VIRTUAL_SAFETY_CAR == 0 && r.VSC_ENDING == 0

/-- The second mask in `calculate_tyre_degradation` (`helpers.py`,
lines 38-40): drop pit-in laps, pit-out laps and lap number 1. -/
def in_out_lap1_mask (r : LapRecord) : Bool :=
  !r.pit_stop_in_lap && !r.pit_stop_out_lap && !(r.lap_number == 1)

/-- The two successive dataframe filters of `calculate_tyre_degradation`. -/
def qualifying_laps (session : List LapRecord) (compound : String) :
    List LapRecord :=
  (session.filter (degradation_mask compound)).filter in_out_lap1_mask

/-- The slope returned by `scipy.stats.linregress(xs, ys)`:
`(n*Σxy - Σx*Σy) / (n*Σx² - (Σx)²)`, i.e. the least-squares slope of `ys`
against `xs`, exact over `ℚ`. -/
def linregress_slope (xs ys : List ℚ) : ℚ :=
  let n : ℚ := xs.length
  let sx := xs.sum
  let sy := ys.sum
  let sxy := ((xs.zip ys).map fun p => p.1 * p.2).sum
  let sxx := (xs.map fun x => x * x).sum
  (n * sxy - sx * sy) / (n * sxx - sx * sx)

/-- The distinct stint identifiers, as produced by `groupby('stint')`. -/
def stint_ids (laps : List LapRecord) : List ℤ :=
  (laps.map fun r => r.stint).dedup

/-- The rows of one stint group. -/
def stint_laps (laps : List LapRecord) (s : ℤ) : List LapRecord :=
  laps.filter fun r => r.stint == s

/-- One stint's degradation estimate: the `linregress` slope of
`lap_time_approx_s` against `lap_number` (`helpers.py`, lines 50-52). -/
def stint_slope (laps : List LapRecord) (s : ℤ) : ℚ :=
  linregress_slope ((stint_laps laps s).map fun r => r.lap_number)
    ((stint_laps laps s).map fun r => r.lap_time_approx_s)

/-- `calculate_tyre_degradation` (`helpers.py`, lines 12-63), taking the
cleaned session it fetches as an argument: filter, group by stint, fit a
slope per stint with at least 3 laps, average, add the 0.0375 fuel
correction. `none` models the `np.nan` produced when no stint qualifies
(NaN + 0.0375 is still NaN). -/
def calculate_tyre_degradation (cleaned_session : List LapRecord)
    (compound : String) : Option ℚ :=
  let laps := qualifying_laps cleaned_session compound
  let slopes := (stint_ids laps).filterMap fun s =>
    if (stint_laps laps s).length < 3 then none
    else some (stint_slope laps s)
  if slopes.length = 0 then none
  else some (slopes.sum / (slopes.length : ℚ) + 0.0375)

lemma mem_qualifying_laps (session : List LapRecord) (compound : String)
    (x : LapRecord) :
    x ∈ qualifying_laps session compound ↔
      x ∈ session ∧ x.compound = compound ∧ x.RED_FLAG = 0 ∧ x.YELLOW = 0
        ∧ x.SAFETY_CAR = 0 ∧ x.VIRTUAL_SAFETY_CAR = 0 ∧ x.VSC_ENDING = 0
        ∧ x.pit_stop_in_lap = false ∧ x.pit_stop_out_lap = false
        ∧ x.lap_number ≠ 1 := by
  simp only [qualifying_laps, List.mem_filter, degradation_mask,
    in_out_lap1_mask, Bool.and_eq_true, beq_iff_eq, Bool.not_eq_true',
    beq_eq_false_iff_ne, ne_eq]
  tauto

lemma qualifying_laps_cons_of_excluded (session : List LapRecord)
    (compound : String) (r : LapRecord)
    (h : (degradation_mask compound r && in_out_lap1_mask r) = false) :
    qualifying_laps (r :: session) compound
      = qualifying_laps session compound := by
  unfold qualifying_laps
  cases hd : degradation_mask compound r with
  | false => simp [List.filter_cons, hd]
  | true =>
    have hio : in_out_lap1_mask r = false := by
      cases hio : in_out_lap1_mask r
      · rfl
      · rw [hd, hio] at h; exact absurd h (by simp)
    simp [List.filter_cons, hd, hio]

/-- Claim C5: the per-stint fit uses exactly the laps of the requested
compound that survive every exclusion rule (pit-in, pit-out, lap 1, any of
the five caution flags), and a lap excluded by any rule contributes nothing
to the computed degradation. -/
theorem degradation_fit_uses_exactly_filtered_laps (session : List LapRecord)
    (compound : String) (r : LapRecord)
    (hex : r.compound ≠ compound ∨ r.RED_FLAG ≠ 0 ∨ r.YELLOW ≠ 0
      ∨ r.SAFETY_CAR ≠ 0 ∨ r.VIRTUAL_SAFETY_CAR ≠ 0 ∨ r.VSC_ENDING ≠ 0
      ∨ r.pit_stop_in_lap = true ∨ r.pit_stop_out_lap = true
      ∨ r.lap_number = 1) :
    (∀ x, x ∈ qualifying_laps session compound ↔
        x ∈ session ∧ x.compound = compound ∧ x.RED_FLAG = 0 ∧ x.YELLOW = 0
          ∧ x.SAFETY_CAR = 0 ∧ x.VIRTUAL_SAFETY_CAR = 0 ∧ x.VSC_ENDING = 0
          ∧ x.pit_stop_in_lap = false ∧ x.pit_stop_out_lap = false
          ∧ x.lap_number ≠ 1)
      ∧ r ∉ qualifying_laps session compound
      ∧ calculate_tyre_degradation (r :: session) compound
          = calculate_tyre_degradation session compound := by
  have hmask : (degradation_mask compound r && in_out_lap1_mask r) = false := by
    cases hb : (degradation_mask compound r && in_out_lap1_mask r) with
    | false => rfl
    | true =>
      exfalso
      simp only [degradation_mask, in_out_lap1_mask, Bool.and_eq_true,
        beq_iff_eq, Bool.not_eq_true', beq_eq_false_iff_ne, ne_eq] at hb
      rcases hex with h | h | h | h | h | h | h | h | h <;> simp_all
  refine ⟨mem_qualifying_laps session compound, ?_, ?_⟩
  · intro hmem
    rw [mem_qualifying_laps] at hmem
    simp only [ne_eq] at hmem
    rcases hex with h | h | h | h | h | h | h | h | h <;> simp_all
  · have hq := qualifying_laps_cons_of_excluded session compound r hmask
    unfold calculate_tyre_degradation
    rw [hq]

/-- A green-flag lap of the HARD compound in stint 1 (not a pit lap). -/
def green_hard_lap (lapn t : ℚ) : LapRecord :=
  ⟨lapn, t, 1, "HARD", false, false, 1, 0, 0, 0, 0, 0⟩

/-- A yellow-flagged HARD lap that the estimator must exclude. -/
def yellow_hard_lap : LapRecord :=
  ⟨6, 105, 1, "HARD", false, false, 0, 1, 0, 0, 0, 0⟩

/-- A clean three-lap HARD stint (laps 2, 3, 4 in 100, 101, 102 seconds). -/
def demo_session : List LapRecord :=
  [green_hard_lap 2 100, green_hard_lap 3 101, green_hard_lap 4 102]

/-- Concrete instance of `degradation_fit_uses_exactly_filtered_laps`:
toggling a yellow-flag lap into the table leaves the fit unchanged. -/
theorem degradation_fit_uses_exactly_filtered_laps_witness :
    yellow_hard_lap.YELLOW ≠ 0
      ∧ yellow_hard_lap ∉ qualifying_laps demo_session ("HARD")
      ∧ calculate_tyre_degradation (yellow_hard_lap :: demo_session) ("HARD")
          = calculate_tyre_degradation demo_session ("HARD") :=
  ⟨by decide,
    (degradation_fit_uses_exactly_filtered_laps demo_session ("HARD")
        yellow_hard_lap (by decide)).2.1,
    (degradation_fit_uses_exactly_filtered_laps demo_session ("HARD")
        yellow_hard_lap (by decide)).2.2⟩

lemma filterMap_threshold (l : List ℤ) (g : ℤ → ℕ) (f : ℤ → ℚ) :
    (l.filterMap fun s => if g s < 3 then none else some (f s))
      = (l.filter fun s => 3 ≤ g s).map f := by
  induction l with
  | nil => rfl
  | cons x xs ih =>
    by_cases h : g x < 3
    · have h2 : ¬ 3 ≤ g x := by omega
      simp [List.filterMap_cons, List.filter_cons, h, h2, ih]
    · have h2 : 3 ≤ g x := by omega
      simp [List.filterMap_cons, List.filter_cons, h, h2, ih]

/-- Claim C6: the returned degradation rate is the mean of the per-stint
regression slopes over exactly the stints with at least 3 qualifying laps,
plus the fixed 0.0375 fuel correction. -/
theorem degradation_is_mean_slope_plus_fuel (session : List LapRecord)
    (compound : String)
    (hne : ((stint_ids (qualifying_laps session compound)).filter fun s =>
        3 ≤ (stint_laps (qualifying_laps session compound) s).length) ≠ []) :
    calculate_tyre_degradation session compound
      = some (
          (((stint_ids (qualifying_laps session compound)).filter fun s =>
              3 ≤ (stint_laps (qualifying_laps session compound) s).length).map
                (stint_slope (qualifying_laps session compound))).sum
            / (((stint_ids (qualifying_laps session compound)).filter fun s =>
                3 ≤ (stint_laps (qualifying_laps session compound) s).length).length
                : ℚ)
          + 0.0375) := by
  have hlen : (((stint_ids (qualifying_laps session compound)).filter fun s =>
      3 ≤ (stint_laps (qualifying_laps session compound) s).length).map
        (stint_slope (qualifying_laps session compound))).length ≠ 0 := by
    rw [List.length_map]
    exact fun h => hne (List.length_eq_zero.mp h)
  simp only [calculate_tyre_degradation]
  rw [filterMap_threshold, if_neg hlen, List.length_map]

/-- Concrete instance of `degradation_is_mean_slope_plus_fuel`: the
three-lap demo stint qualifies, so the estimator returns the averaged
slope plus the fuel correction. -/
theorem degradation_is_mean_slope_plus_fuel_witness :
    (((stint_ids (qualifying_laps demo_session ("HARD"))).filter fun s =>
        3 ≤ (stint_laps (qualifying_laps demo_session ("HARD")) s).length) ≠ [])
      ∧ calculate_tyre_degradation demo_session ("HARD")
        = some (
            (((stint_ids (qualifying_laps demo_session ("HARD"))).filter fun s =>
                3 ≤ (stint_laps (qualifying_laps demo_session ("HARD")) s).length).map
                  (stint_slope (qualifying_laps demo_session ("HARD")))).sum
              / (((stint_ids (qualifying_laps demo_session ("HARD"))).filter fun s =>
                  3 ≤ (stint_laps (qualifying_laps demo_session ("HARD")) s).length).length
                  : ℚ)
            + 0.0375) :=
  ⟨by decide,
    degradation_is_mean_slope_plus_fuel demo_session ("HARD") (by decide)⟩

/-- Float addition with NaN (`none`) propagation. -/
def oadd : Option ℚ → Option ℚ → Option ℚ
  | some a, some b => some (a + b)
  | _, _ => none

/-- Float multiplication with NaN (`none`) propagation (IEEE `NaN * x = NaN`,
including `x = 0`). -/
def omul : Option ℚ → Option ℚ → Option ℚ
  | some a, some b => some (a * b)
  | _, _ => none

/-- `calculate_total_stint_time` on possibly-NaN pace and degradation values:
`stint_len * avg + deg * (stint_len * (stint_len - 1) / 2)` where the two
factors coming from ints are always finite. -/
def total_stint_time_nan (avg_lap_time tyre_deg : Option ℚ) (stint_len : ℤ) :
    Option ℚ :=
  oadd (omul (some (stint_len : ℚ)) avg_lap_time)
    (omul tyre_deg (some ((stint_len : ℚ) * ((stint_len : ℚ) - 1) / 2)))

/-- The `simulate_race` accumulation loop on possibly-NaN per-compound
values (same structure as `race_time_loop`). -/
def race_time_loop_nan (pit_stop_time_loss : ℚ) (last_index : ℕ)
    (avg deg : String → Option ℚ) : ℕ → List (String × ℤ) → Option ℚ
  | _, [] => some 0
  | i, (c, s) :: rest =>
    oadd (oadd (total_stint_time_nan (avg c) (deg c) s)
        (if i ≠ last_index then some pit_stop_time_loss else some 0))
      (race_time_loop_nan pit_stop_time_loss last_index avg deg (i + 1) rest)

/-- `simulate_strategy` on possibly-NaN per-compound values. -/
def simulate_strategy_nan (number_of_laps : ℤ) (pit_stop_time_loss : ℚ)
    (stop_laps : List ℤ) (compounds : List String)
    (avg deg : String → Option ℚ) : Option ℚ :=
  let stint_lengths := build_stint_lengths number_of_laps stop_laps
  race_time_loop_nan pit_stop_time_loss (stint_lengths.length - 1) avg deg 0
    (compounds.zip stint_lengths)

lemma oadd_none_left (b : Option ℚ) : oadd none b = none := by cases b <;> rfl

lemma oadd_none_right (a : Option ℚ) : oadd a none = none := by cases a <;> rfl

lemma omul_none_left (b : Option ℚ) : omul none b = none := by cases b <;> rfl

lemma total_stint_time_nan_none_deg (avg_lap_time : Option ℚ) (stint_len : ℤ) :
    total_stint_time_nan avg_lap_time none stint_len = none := by
  unfold total_stint_time_nan
  rw [omul_none_left, oadd_none_right]

lemma race_time_loop_nan_none (pit : ℚ) (last_index : ℕ)
    (avg deg : String → Option ℚ) (pairs : List (String × ℤ)) :
    ∀ i : ℕ, (∃ p ∈ pairs, deg p.1 = none) →
      race_time_loop_nan pit last_index avg deg i pairs = none := by
  induction pairs with
  | nil =>
    rintro i ⟨p, hp, _⟩
    exact absurd hp (List.not_mem_nil p)
  | cons p rest ih =>
    rintro i ⟨q, hq, hdeg⟩
    obtain ⟨c, s⟩ := p
    rcases List.mem_cons.mp hq with h | h
    · subst h
      simp only [race_time_loop_nan]
      rw [show deg (c, s).1 = none from hdeg, total_stint_time_nan_none_deg,
        oadd_none_left, oadd_none_left]
    · have htail := ih (i + 1) ⟨q, h, hdeg⟩
      simp only [race_time_loop_nan]
      rw [htail, oadd_none_right]

lemma exists_mem_zip_left {α β : Type} : ∀ (l1 : List α) (l2 : List β) (a : α),
    a ∈ l1 → l1.length ≤ l2.length → ∃ b, (a, b) ∈ l1.zip l2
  | [], _, a, ha, _ => absurd ha (List.not_mem_nil a)
  | _ :: _, [], _, _, hlen => by simp at hlen
  | x :: xs, y :: ys, a, ha, hlen => by
    rcases List.mem_cons.mp ha with h | h
    · exact ⟨y, by simp [h]⟩
    · obtain ⟨b, hb⟩ := exists_mem_zip_left xs ys a h (by simpa using hlen)
      exact ⟨b, List.mem_cons_of_mem _ hb⟩

/-- Claim C7: when no stint of the requested compound has at least 3
qualifying laps, `calculate_tyre_degradation` returns NaN (`none`) instead
of raising, and that NaN propagates into a NaN projected total for every
strategy that uses the compound. -/
theorem no_qualifying_stint_gives_nan_total (session : List LapRecord)
    (compound : String)
    (hfew : ∀ s ∈ stint_ids (qualifying_laps session compound),
        (stint_laps (qualifying_laps session compound) s).length < 3) :
    calculate_tyre_degradation session compound = none
      ∧ ∀ (number_of_laps : ℤ) (pit : ℚ) (stop_laps : List ℤ)
          (compounds : List String) (avg deg : String → Option ℚ),
          deg compound = calculate_tyre_degradation session compound →
          compound ∈ compounds →
          compounds.length = stop_laps.length + 1 →
          simulate_strategy_nan number_of_laps pit stop_laps compounds avg deg
            = none := by
  have hnan : calculate_tyre_degradation session compound = none := by
    have hslopes : ((stint_ids (qualifying_laps session compound)).filterMap
        fun s =>
          if (stint_laps (qualifying_laps session compound) s).length < 3
          then none
          else some (stint_slope (qualifying_laps session compound) s)) = [] := by
      rw [List.filterMap_eq_nil]
      intro s hs
      rw [if_pos (hfew s hs)]
    simp only [calculate_tyre_degradation]
    rw [hslopes]
    rfl
  refine ⟨hnan, ?_⟩
  intro number_of_laps pit stop_laps compounds avg deg hdeg hc hlen
  have hdegc : deg compound = none := hdeg.trans hnan
  have hst := build_stint_lengths_length number_of_laps stop_laps
  obtain ⟨b, hb⟩ := exists_mem_zip_left compounds
    (build_stint_lengths number_of_laps stop_laps) compound hc
    (by rw [hst, hlen])
  simp only [simulate_strategy_nan]
  exact race_time_loop_nan_none pit _ avg deg _ 0 ⟨(compound, b), hb, hdegc⟩

/-- A HARD stint of only two qualifying laps: too short for a fit. -/
def demo_session_short : List LapRecord :=
  [green_hard_lap 2 100, green_hard_lap 3 101]

/-- Concrete instance of `no_qualifying_stint_gives_nan_total`: with a
two-lap stint the estimator yields NaN and a one-stop HARD/HARD strategy
projects a NaN total. -/
theorem no_qualifying_stint_gives_nan_total_witness :
    (∀ s ∈ stint_ids (qualifying_laps demo_session_short ("HARD")),
        (stint_laps (qualifying_laps demo_session_short ("HARD")) s).length < 3)
      ∧ calculate_tyre_degradation demo_session_short ("HARD") = none
      ∧ simulate_strategy_nan 50 21 [10] ["HARD", "HARD"]
          (fun _ => some 90)
          (fun c => calculate_tyre_degradation demo_session_short c) = none :=
  ⟨by decide,
    (no_qualifying_stint_gives_nan_total demo_session_short ("HARD")
        (by decide)).1,
    (no_qualifying_stint_gives_nan_total demo_session_short ("HARD")
        (by decide)).2 50 21 [10] ["HARD", "HARD"] (fun _ => some 90)
      (fun c => calculate_tyre_degradation demo_session_short c) rfl
      (by decide) rfl⟩

/-- Python substring containment `needle in hay`, on character lists
(`"" in s` is true). -/
def str_contains : List Char → List Char → Bool
  | [], needle => needle.isEmpty
  | c :: t, needle => needle.isPrefixOf (c :: t) || str_contains t needle

/-- The six binary columns produced by `TrackStatus.expand_statuses`
(`enums.py`, lines 6-27), one per enum member. -/
structure TrackStatusFlags where
  GREEN : ℤ
  YELLOW : ℤ
  SAFETY_CAR : ℤ
  RED_FLAG : ℤ
  VIRTUAL_SAFETY_CAR : ℤ
  VSC_ENDING : ℤ
  deriving DecidableEq, Repr

/-- `series.astype(str)` renders a missing track-status value as the string
"nan"; the subsequent `fillna("")` is then a no-op. -/
def status_str : Option String → String
  | none => "nan"
  | some s => s

/-- One binary column of `expand_statuses`:
`int(str(status.value) in code)`. -/
def status_flag (value : ℕ) (code : String) : ℤ :=
  if str_contains code.data (Nat.repr value).data then 1 else 0

/-- `TrackStatus.expand_statuses` on one lap's raw track-status value
(`none` = missing): columns for GREEN=1, YELLOW=2, SAFETY_CAR=4,
RED_FLAG=5, VIRTUAL_SAFETY_CAR=6, VSC_ENDING=7. -/
def expand_statuses (code : Option String) : TrackStatusFlags :=
  ⟨status_flag 1 (status_str code), status_flag 2 (status_str code),
    status_flag 4 (status_str code), status_flag 5 (status_str code),
    status_flag 6 (status_str code), status_flag 7 (status_str code)⟩

/-- Assemble a cleaned-lap row from its columns and expanded status flags
(`clean_race_data` plus `_expand_track_statuses`). -/
def mk_lap (lapn t : ℚ) (stint : ℤ) (compound : String)
    (pit_in pit_out : Bool) (f : TrackStatusFlags) : LapRecord :=
  ⟨lapn, t, stint, compound, pit_in, pit_out, f.GREEN, f.YELLOW,
    f.SAFETY_CAR, f.RED_FLAG, f.VIRTUAL_SAFETY_CAR, f.VSC_ENDING⟩

/-- Claim C10: a lap whose track-status string is missing (rendered "nan")
or contains none of the known status digits gets all six flag columns set
to 0, so the degradation estimator's caution filter does not exclude it —
it participates in the fit exactly like a green lap. -/
theorem unknown_status_participates (code : Option String)
    (h : ∀ v ∈ [1, 2, 4, 5, 6, 7],
        str_contains (status_str code).data (Nat.repr v).data = false) :
    ((expand_statuses code).GREEN = 0 ∧ (expand_statuses code).YELLOW = 0
        ∧ (expand_statuses code).SAFETY_CAR = 0
        ∧ (expand_statuses code).RED_FLAG = 0
        ∧ (expand_statuses code).VIRTUAL_SAFETY_CAR = 0
        ∧ (expand_statuses code).VSC_ENDING = 0)
      ∧ ∀ (lapn t : ℚ) (stint : ℤ) (compound : String), lapn ≠ 1 →
          (degradation_mask compound
              (mk_lap lapn t stint compound false false (expand_statuses code))
            && in_out_lap1_mask
              (mk_lap lapn t stint compound false false (expand_statuses code)))
            = true := by
  have h1 := h 1 (by simp)
  have h2 := h 2 (by simp)
  have h4 := h 4 (by simp)
  have h5 := h 5 (by simp)
  have h6 := h 6 (by simp)
  have h7 := h 7 (by simp)
  have hflags : expand_statuses code = ⟨0, 0, 0, 0, 0, 0⟩ := by
    simp [expand_statuses, status_flag, h1, h2, h4, h5, h6, h7]
  constructor
  · rw [hflags]
    exact ⟨rfl, rfl, rfl, rfl, rfl, rfl⟩
  · intro lapn t stint compound hlapn
    rw [hflags]
    simp [degradation_mask, in_out_lap1_mask, mk_lap, hlapn]

/-- Concrete instance of `unknown_status_participates`: the status string
"89" holds no known digit, and a missing status renders as "nan", which
holds none either; both pass the caution filter. -/
theorem unknown_status_participates_witness :
    (∀ v ∈ [1, 2, 4, 5, 6, 7],
        str_contains (status_str (some ("89"))).data (Nat.repr v).data = false)
      ∧ (expand_statuses (some ("89"))).YELLOW = 0
      ∧ (degradation_mask ("HARD")
            (mk_lap 5 100 1 ("HARD") false false (expand_statuses (some ("89"))))
          && in_out_lap1_mask
            (mk_lap 5 100 1 ("HARD") false false
              (expand_statuses (some ("89"))))) = true :=
  ⟨by decide,
    (unknown_status_participates (some ("89")) (by decide)).1.2.1,
    (unknown_status_participates (some ("89")) (by decide)).2 5 100 1 ("HARD")
      (by decide)⟩

/-- The `PitStopTimeLoss` enum table (`enums.py`, lines 30-56), keyed by
member name, values in seconds. -/
def pit_stop_time_loss_table : List (String × ℚ) :=
  [("BAHRAIN", 25), ("SAUDI_ARABIA", 21), ("AUSTRALIA", 18), ("JAPAN", 23),
    ("CHINA", 23), ("MIAMI", 23), ("EMILIA_ROMAGNA", 30), ("MONACO", 24),
    ("CANADA", 24), ("SPAIN", 22), ("AUSTRIA", 22), ("GREAT_BRITAIN", 29),
    ("HUNGARY", 22), ("BELGIUM", 23), ("NETHERLANDS", 21), ("ITALY", 24),
    ("AZERBAIJAN", 20), ("SINGAPORE", 29), ("UNITED_STATES", 24),
    ("MEXICO", 23), ("BRAZIL", 25), ("LAS_VEGAS", 21), ("QATAR", 23),
    ("ABU_DHABI", 22)]

/-- The `NumberOfLaps` enum table (`enums.py`, lines 67-91). -/
def number_of_laps_table : List (String × ℤ) :=
  [("BAHRAIN", 57), ("SAUDI_ARABIA", 50), ("AUSTRALIA", 58), ("JAPAN", 53),
    ("CHINA", 56), ("MIAMI", 57), ("EMILIA_ROMAGNA", 63), ("MONACO", 78),
    ("CANADA", 70), ("SPAIN", 66), ("AUSTRIA", 71), ("GREAT_BRITAIN", 52),
    ("HUNGARY", 70), ("BELGIUM", 44), ("NETHERLANDS", 72), ("ITALY", 53),
    ("AZERBAIJAN", 51), ("SINGAPORE", 61), ("UNITED_STATES", 56),
    ("MEXICO", 71), ("BRAZIL", 71), ("LAS_VEGAS", 50), ("QATAR", 57),
    ("ABU_DHABI", 58)]

/-- The key normalization in both `from_name` class methods:
`race.replace(" ", "_").upper()`. Because the pattern is the single
character a space, the replace-then-upper passes fuse into one character
map (an underscore is unaffected by upper-casing). -/
def normalize_race_key (race : String) : String :=
  String.mk (race.data.map fun ch => if ch = ' ' then '_' else ch.toUpper)

/-- `PitStopTimeLoss.from_name` (`enums.py`, lines 58-64): normalized enum
lookup, `ValueError` on a miss modelled as `Except.error`. -/
def pitStopTimeLoss_from_name (race : String) : Except String ℚ :=
  match pit_stop_time_loss_table.lookup (normalize_race_key race) with
  | some v => Except.ok v
  | none => Except.error ("Race not found: " ++ race)

/-- `NumberOfLaps.from_name` (`enums.py`, lines 93-99). -/
def numberOfLaps_from_name (race : String) : Except String ℤ :=
  match number_of_laps_table.lookup (normalize_race_key race) with
  | some v => Except.ok v
  | none => Except.error ("Race not found: " ++ race)

/-- Claim C8: both reference lookups key on the normalized race name
(spaces to underscores, upper-cased); a known key returns its table value
and an unknown key fails with a "Race not found" error — never a default. -/
theorem race_lookup_normalizes_and_fails (race : String) :
    (∀ v, pit_stop_time_loss_table.lookup (normalize_race_key race) = some v →
        pitStopTimeLoss_from_name race = Except.ok v)
      ∧ (pit_stop_time_loss_table.lookup (normalize_race_key race) = none →
          pitStopTimeLoss_from_name race
            = Except.error ("Race not found: " ++ race))
      ∧ (∀ v, number_of_laps_table.lookup (normalize_race_key race) = some v →
          numberOfLaps_from_name race = Except.ok v)
      ∧ (number_of_laps_table.lookup (normalize_race_key race) = none →
          numberOfLaps_from_name race
            = Except.error ("Race not found: " ++ race)) := by
  refine ⟨?_, ?_, ?_, ?_⟩
  · intro v hv
    simp only [pitStopTimeLoss_from_name, hv]
  · intro hn
    simp only [pitStopTimeLoss_from_name, hn]
  · intro v hv
    simp only [numberOfLaps_from_name, hv]
  · intro hn
    simp only [numberOfLaps_from_name, hn]

/-- Concrete instance of `race_lookup_normalizes_and_fails`: "saudi arabia"
normalizes to SAUDI_ARABIA (21.0 s pit loss); "Atlantis" is unknown and
fails. -/
theorem race_lookup_normalizes_and_fails_witness :
    pitStopTimeLoss_from_name ("saudi arabia") = Except.ok 21
      ∧ numberOfLaps_from_name ("Atlantis")
          = Except.error ("Race not found: " ++ "Atlantis") :=
  ⟨(race_lookup_normalizes_and_fails ("saudi arabia")).1 21 (by decide),
    (race_lookup_normalizes_and_fails ("Atlantis")).2.2.2 (by decide)⟩

/-- `get_last_race_without_rain` (`helpers.py`, lines 66-90), fuel-indexed.
`hasRain y` abstracts loading year `y`'s race and checking any driver's lap
for an INTERMEDIATE or WET compound; an iteration queries one year and
either returns that year's cleaned data (modelled by the year itself) or
decrements and retries. The source loop is `while True:` with no other
exit, so the first component is `none` while the loop is still running
after `fuel` iterations; the second component lists the years queried. -/
def get_last_race_without_rain (hasRain : ℤ → Bool) :
    ℤ → ℕ → Option ℤ × List ℤ
  | _, 0 => (none, [])
  | year, fuel + 1 =>
    if hasRain year then
      let r := get_last_race_without_rain hasRain (year - 1) fuel
      (r.1, year :: r.2)
    else (some year, [year])

lemma get_last_race_all_rain : ∀ (fuel : ℕ) (year : ℤ),
    (get_last_race_without_rain (fun _ => true) year fuel).1 = none
  | 0, _ => rfl
  | fuel + 1, year => by
    have ih := get_last_race_all_rain fuel (year - 1)
    simp [get_last_race_without_rain, ih]

/-- Claim C1 (refuted — code defect): the backward season search has no
floor-year check and no "no suitable race found" branch. If every queried
season has rain the loop never produces any result, and a search already
below 1950 keeps querying ever-earlier years instead of failing. -/
theorem search_below_floor_never_fails :
    (¬ ∃ (fuel : ℕ) (y : ℤ),
        (get_last_race_without_rain (fun _ => true) 1949 fuel).1 = some y)
      ∧ (get_last_race_without_rain (fun _ => true) 1949 5).2
          = [1949, 1948, 1947, 1946, 1945] := by
  constructor
  · rintro ⟨fuel, y, hy⟩
    rw [get_last_race_all_rain fuel 1949] at hy
    exact Option.noConfusion hy
  · rfl

/-- When some queried year is dry the loop does return: sanity check that
the embedding is not vacuously divergent. -/
theorem search_returns_first_dry_year (hasRain : ℤ → Bool) (year : ℤ)
    (fuel : ℕ) (hdry : hasRain year = false) :
    (get_last_race_without_rain hasRain year (fuel + 1)).1 = some year := by
  simp [get_last_race_without_rain, hdry]

/-- Concrete instance of `search_returns_first_dry_year`. -/
theorem search_returns_first_dry_year_witness :
    (fun _ : ℤ => false) 2023 = false
      ∧ (get_last_race_without_rain (fun _ => false) 2023 3).1 = some 2023 :=
  ⟨rfl, search_returns_first_dry_year (fun _ => false) 2023 2 rfl⟩

end F1Sim
